import Mathlib

/-!
Verification of the gravitic-celestial ingestion core: a shallow embedding of
`src/core/ingestion/state_manager.py` (the SQLite claim/dedup ledger) and
`src/core/ingestion/polling_engine.py` (the polling cycle and scheduler
surface), with theorems settling the frozen claims about them.

Timestamps are modelled as integers (minutes); the two SQLite tables become
explicit association lists; SQLite AUTOINCREMENT becomes the `next_error_id`
counter; a store write that raises is modelled by an injected `store_fault`
flag, mirroring the `try/except` wrappers in the Python code.
-/

namespace Celestial

/-- Row status in the `processed_filings` table.  The Python code stores the
strings "in_progress", "processed" and "failed". -/
inductive Status
  | in_progress
  | processed
  | failed
deriving DecidableEq, Repr

/-- One row of the `processed_filings` table (primary key `accession_number`
is the association-list key).  `processed_at` is set on insert only
(SQLite `DEFAULT CURRENT_TIMESTAMP`); the upserts overwrite the rest. -/
structure FilingRow where
  ticker : String
  filing_date : String
  processed_at : Int
  status : Status
  status_updated_at : Int
  error_id : Option Nat
deriving DecidableEq, Repr

/-- One row of the append-only `filing_errors` table; `id` models the
AUTOINCREMENT primary key. -/
structure FailureRow where
  id : Nat
  accession_number : String
  ticker : String
  error_type : String
  error_message : String
  created_at : Int
deriving DecidableEq, Repr

/-- The SQLite database of StateManager: both tables plus the AUTOINCREMENT
counter for `filing_errors.id`. -/
structure DB where
  filings : List (String × FilingRow)
  failures : List FailureRow
  next_error_id : Nat
deriving DecidableEq, Repr

/-- Lookup by primary key (`SELECT ... WHERE accession_number = ?`). -/
def findRow : List (String × FilingRow) → String → Option FilingRow
  | [], _ => none
  | (k, r) :: t, acc => if k = acc then some r else findRow t acc

/-- Overwrite the row(s) keyed by `acc` (the UPDATE arm of the upsert). -/
def setRow : List (String × FilingRow) → String → FilingRow → List (String × FilingRow)
  | [], _, _ => []
  | (k, r) :: t, acc, new =>
    if k = acc then (k, new) :: setRow t acc new else (k, r) :: setRow t acc new

/-- The DO UPDATE arm of the upsert: overwrite ticker, filing_date, status,
status_updated_at and error_id, keep `processed_at`. -/
def updateRow (old : FilingRow) (ticker filing_date : String) (st : Status)
    (now : Int) (eid : Option Nat) : FilingRow :=
  { old with ticker := ticker, filing_date := filing_date, status := st,
             status_updated_at := now, error_id := eid }

/-- The INSERT arm of the upsert: a fresh row (`processed_at` takes its
`DEFAULT CURRENT_TIMESTAMP`). -/
def newRow (ticker filing_date : String) (st : Status) (now : Int)
    (eid : Option Nat) : FilingRow :=
  { ticker := ticker, filing_date := filing_date, processed_at := now,
    status := st, status_updated_at := now, error_id := eid }

/-- The `INSERT ... ON CONFLICT(accession_number) DO UPDATE` statement shared
by the three mark operations. -/
def upsertFiling (db : DB) (accession_number ticker filing_date : String)
    (st : Status) (now : Int) (eid : Option Nat) : DB :=
  match findRow db.filings accession_number with
  | some old =>
      let l2 := setRow db.filings accession_number (updateRow old ticker filing_date st now eid)
      { db with filings := l2 }
  | none =>
      let l2 := (accession_number, newRow ticker filing_date st now eid) :: db.filings
      { db with filings := l2 }

/-- StateManager.is_processed: `SELECT 1 FROM processed_filings WHERE
accession_number = ? AND status IN ('processed', 'in_progress')` is non-empty.
This is the dedup gate the spec calls `is_claimed_or_done`. -/
def is_processed (db : DB) (accession_number : String) : Bool :=
  match findRow db.filings accession_number with
  | some row => row.status == Status.processed || row.status == Status.in_progress
  | none => false

/-- Successful body of StateManager.mark_in_progress: upsert with
status "in_progress", `status_updated_at = CURRENT_TIMESTAMP`, `error_id = NULL`. -/
def mark_in_progress_core (db : DB) (accession_number ticker filing_date : String)
    (now : Int) : DB :=
  upsertFiling db accession_number ticker filing_date Status.in_progress now none

/-- Successful body of StateManager.mark_processed: upsert with
status "processed", `status_updated_at = CURRENT_TIMESTAMP`, `error_id = NULL`. -/
def mark_processed_core (db : DB) (accession_number ticker filing_date : String)
    (now : Int) : DB :=
  upsertFiling db accession_number ticker filing_date Status.processed now none

/-- Successful body of StateManager.mark_failed: insert a `filing_errors` row,
take its `lastrowid`, then upsert the filing row with status "failed" and
`error_id` pointing at the new error row. -/
def mark_failed_core (db : DB)
    (accession_number ticker filing_date error_type error_message : String)
    (now : Int) : DB :=
  let eid := db.next_error_id
  let db1 : DB :=
    { db with
      failures := db.failures ++
        [{ id := eid, accession_number := accession_number, ticker := ticker,
           error_type := error_type, error_message := error_message, created_at := now }],
      next_error_id := eid + 1 }
  upsertFiling db1 accession_number ticker filing_date Status.failed now (some eid)

/-- StateManager.mark_in_progress with its `try/except` wrapper: a store
error (`store_fault = true`) is caught and only printed, so the call always
returns normally; on a fault the write has no effect. -/
def mark_in_progress (store_fault : Bool) (db : DB)
    (accession_number ticker filing_date : String) (now : Int) : Except String DB :=
  match (if store_fault then Except.error "database error"
         else Except.ok (mark_in_progress_core db accession_number ticker filing_date now) :
         Except String DB) with
  | Except.ok db2 => Except.ok db2
  | Except.error _ => Except.ok db

/-- StateManager.mark_processed with its `try/except` wrapper (see
`mark_in_progress`). -/
def mark_processed (store_fault : Bool) (db : DB)
    (accession_number ticker filing_date : String) (now : Int) : Except String DB :=
  match (if store_fault then Except.error "database error"
         else Except.ok (mark_processed_core db accession_number ticker filing_date now) :
         Except String DB) with
  | Except.ok db2 => Except.ok db2
  | Except.error _ => Except.ok db

/-- StateManager.mark_failed with its `try/except` wrapper (see
`mark_in_progress`). -/
def mark_failed (store_fault : Bool) (db : DB)
    (accession_number ticker filing_date error_type error_message : String)
    (now : Int) : Except String DB :=
  match (if store_fault then Except.error "database error"
         else Except.ok (mark_failed_core db accession_number ticker filing_date
                error_type error_message now) :
         Except String DB) with
  | Except.ok db2 => Except.ok db2
  | Except.error _ => Except.ok db

/-- The WHERE clause of the stale sweep: `status = 'in_progress' AND
status_updated_at < datetime('now', '-<max_age> minutes')`. -/
def stale_pred (max_age_minutes now : Int) (p : String × FilingRow) : Bool :=
  p.2.status == Status.in_progress &&
    decide (p.2.status_updated_at < now - max_age_minutes)

/-- StateManager.cleanup_stale_in_progress: select the stale in-progress rows,
mark each failed with error_type "stale_in_progress" (the Python `ticker or ""`
guard is the identity here because modelled tickers are never NULL), and
return how many were selected. -/
def cleanup_stale_in_progress (db : DB) (max_age_minutes : Int) (now : Int) : DB × Nat :=
  let stale := db.filings.filter (stale_pred max_age_minutes now)
  let db2 := stale.foldl
    (fun d p =>
      mark_failed_core d p.1 p.2.ticker p.2.filing_date "stale_in_progress"
        ("Filing stuck in progress for more than " ++ toString max_age_minutes ++
          " minutes.") now)
    db
  (db2, stale.length)

/-- StateManager.get_processed_count: `SELECT COUNT(*) FROM processed_filings`
(it counts every row, whatever its status). -/
def get_processed_count (db : DB) : Nat :=
  db.filings.length

/-- The status column of the row for an accession, if the row exists. -/
def status_of (db : DB) (accession : String) : Option Status :=
  (findRow db.filings accession).map FilingRow.status

/-- The id of the most recently appended `filing_errors` row for an accession
(the table is append-only, so the last matching element is the most recent). -/
def lastFailureIdFor (db : DB) (accession : String) : Option Nat :=
  ((db.failures.filter (fun fr => fr.accession_number == accession)).getLast?).map
    FailureRow.id

/-- A database with no rows, as `_init_db` leaves a fresh store
(AUTOINCREMENT ids start at 1). -/
def dbEmpty : DB :=
  { filings := [], failures := [], next_error_id := 1 }

/-- A Python exception as `run_once` captures it: `type(exc).__name__` and
`str(exc)`. -/
structure Exc where
  ty : String
  msg : String
deriving DecidableEq, Repr

/-- A filing descriptor dict as `get_latest_filings` returns it; `none` models
a missing key (`filing.get(...)` returning None).  The opaque edgartools
filing object is modelled by a string handle. -/
structure Filing where
  accession_number : Option String
  ticker : Option String
  filing_date : Option String
  filing_obj : Option String
deriving DecidableEq, Repr

/-- Behaviour of the external collaborators during one cycle:
`get_filing_text` on the source client, `extract_from_text` on the
ExtractionEngine (the report is opaque, modelled as a string), and
`save_report` covering the artifact write plus the notification call inside
`_save_report`.  `Except.error` models the call raising. -/
structure Env where
  get_filing_text : String → Except Exc (Option String)
  extract_from_text : String → String → Except Exc String
  save_report : String → String → String → Except Exc Unit

/-- Observable events of one polling cycle, in order.  Each StateManager call
the engine makes is an event; `fetch_text` and `extract` record the status
the store holds for the accession at the moment the call starts. -/
inductive Event
  | skipped_malformed
  | skipped_dedup (accession : String)
  | fetch_text (accession : String) (row_status : Option Status)
  | extract (accession : String) (row_status : Option Status)
  | mark_in_progress_call (accession : String)
  | mark_processed_call (accession : String)
  | mark_failed_call (accession : String) (error_type : String)
deriving DecidableEq, Repr

/-- Python truthiness of an optional string: None and "" are falsy
(`if not accession`, `if text_content`). -/
def truthy : Option String → Option String
  | some s => if s.isEmpty then none else some s
  | none => none

/-- The body of `run_once`'s per-filing loop: malformed-descriptor skip, the
`is_processed` dedup gate, the `filing_date` None guard, the inner
`try/except` around `get_filing_text` (which swallows the exception and
leaves `text_content = None`), the truthiness checks, and the outer
`try/except` that turns an exception from extraction or `_save_report` into
`mark_failed` and otherwise ends in `mark_processed`. -/
def processFiling (env : Env) (now : Int) (db : DB) (filing : Filing) :
    DB × List Event :=
  match truthy filing.accession_number, truthy filing.ticker with
  | some accession, some ticker =>
    if is_processed db accession then
      (db, [Event.skipped_dedup accession])
    else
      let filing_date := filing.filing_date.getD ""
      match filing.filing_obj with
      | some obj =>
        let fetched : Option String :=
          match env.get_filing_text obj with
          | Except.ok t => t
          | Except.error _ => none
        let ev0 := [Event.fetch_text accession (status_of db accession)]
        match truthy fetched with
        | some text_content =>
          match env.extract_from_text text_content ticker with
          | Except.error e =>
            (mark_failed_core db accession ticker filing_date e.ty e.msg now,
             ev0 ++ [Event.extract accession (status_of db accession),
                     Event.mark_failed_call accession e.ty])
          | Except.ok report =>
            match env.save_report report ticker accession with
            | Except.error e =>
              (mark_failed_core db accession ticker filing_date e.ty e.msg now,
               ev0 ++ [Event.extract accession (status_of db accession),
                       Event.mark_failed_call accession e.ty])
            | Except.ok _ =>
              (mark_processed_core db accession ticker filing_date now,
               ev0 ++ [Event.extract accession (status_of db accession),
                       Event.mark_processed_call accession])
        | none =>
          (mark_processed_core db accession ticker filing_date now,
           ev0 ++ [Event.mark_processed_call accession])
      | none =>
        (mark_processed_core db accession ticker filing_date now,
         [Event.mark_processed_call accession])
  | _, _ => (db, [Event.skipped_malformed])

/-- The per-filing loop over one market group's fetch results. -/
def runFilings (env : Env) (now : Int) : DB → List Filing → DB × List Event
  | db, [] => (db, [])
  | db, f :: rest =>
    let r1 := processFiling env now db f
    let r2 := runFilings env now r1.1 rest
    (r2.1, r1.2 ++ r2.2)

/-- PollingEngine.run_once over the market groups: each group's
`get_latest_filings` either raises (logged, the group is skipped, the cycle
continues) or yields descriptors handed to the per-filing loop. -/
def run_once (env : Env) (now : Int) :
    DB → List (Except Exc (List Filing)) → DB × List Event
  | db, [] => (db, [])
  | db, Except.error _ :: rest => run_once env now db rest
  | db, Except.ok filings :: rest =>
    let r1 := runFilings env now db filings
    let r2 := run_once env now r1.1 rest
    (r2.1, r1.2 ++ r2.2)

/-- A trigger handed to the APScheduler job, as `start_scheduled` builds it. -/
inductive Trigger
  | cron (expr : String)
  | interval (minutes : Int)
deriving DecidableEq, Repr

/-- What `start_scheduled` reaches once its trigger selection is done:
either it delegated to the simple loop (APScheduler missing) or it schedules
`run_once` on a trigger. -/
inductive SchedOutcome
  | simpleLoopFallback
  | scheduled (t : Trigger)
deriving DecidableEq, Repr

/-- The call-time validation of PollingEngine.start_loop:
`interval_seconds <= 0` raises ValueError, otherwise the sleep loop starts
(the loop itself is not modelled). -/
def start_loop (interval_seconds : Int) : Except String Unit :=
  if interval_seconds ≤ 0 then Except.error "interval_seconds must be positive"
  else Except.ok ()

/-- The trigger selection of PollingEngine.start_scheduled.
`apscheduler_available` models whether the APScheduler import succeeds (on
ImportError the code falls back to `start_loop(interval_minutes * 60)`);
`cron_valid` models whether `CronTrigger.from_crontab` accepts the expression
(an external library check: invalid expressions raise ValueError, which the
code catches and downgrades to an IntervalTrigger).  Note the invalid-cron
branch builds `IntervalTrigger(minutes=interval_minutes)` with no positivity
check, while the no-cron branch raises on `interval_minutes <= 0`. -/
def start_scheduled (apscheduler_available : Bool) (cron_valid : String → Bool)
    (cron_expression : Option String) (interval_minutes : Int) :
    Except String SchedOutcome :=
  if apscheduler_available = false then
    match start_loop (interval_minutes * 60) with
    | Except.error e => Except.error e
    | Except.ok _ => Except.ok SchedOutcome.simpleLoopFallback
  else
    match cron_expression with
    | some expr =>
      if cron_valid expr then
        Except.ok (SchedOutcome.scheduled (Trigger.cron expr))
      else
        Except.ok (SchedOutcome.scheduled (Trigger.interval interval_minutes))
    | none =>
      if interval_minutes ≤ 0 then
        Except.error "interval_minutes must be positive"
      else
        Except.ok (SchedOutcome.scheduled (Trigger.interval interval_minutes))

/-- The failure-reference invariant of the spec: a filing row's `error_id` is
NULL unless the row is failed, and a failed row's `error_id` is the id of the
most recently appended failure record for that accession. -/
def error_ref_inv (db : DB) : Prop :=
  ∀ p ∈ db.filings,
    (p.2.status ≠ Status.failed → p.2.error_id = none) ∧
    (p.2.status = Status.failed →
      p.2.error_id.isSome = true ∧ p.2.error_id = lastFailureIdFor db p.1)

instance : DecidablePred error_ref_inv := by
  intro db
  unfold error_ref_inv
  infer_instance

theorem findRow_setRow_self (l : List (String × FilingRow)) (acc : String)
    (new : FilingRow) :
    findRow (setRow l acc new) acc = (findRow l acc).map (fun _ => new) := by
  induction l with
  | nil => rfl
  | cons p t ih =>
    obtain ⟨k, r⟩ := p
    simp only [setRow]
    by_cases h : k = acc
    · rw [if_pos h]
      simp only [findRow]
      rw [if_pos h, if_pos h]
      rfl
    · rw [if_neg h]
      simp only [findRow]
      rw [if_neg h, if_neg h]
      exact ih

theorem findRow_setRow_ne (l : List (String × FilingRow)) (acc b : String)
    (new : FilingRow) (h : b ≠ acc) :
    findRow (setRow l acc new) b = findRow l b := by
  induction l with
  | nil => rfl
  | cons p t ih =>
    obtain ⟨k, r⟩ := p
    simp only [setRow]
    by_cases hk : k = acc
    · have hkb : ¬ k = b := by
        intro e
        exact h (by rw [← e, hk])
      rw [if_pos hk]
      simp only [findRow]
      rw [if_neg hkb, if_neg hkb]
      exact ih
    · rw [if_neg hk]
      simp only [findRow]
      by_cases hkb : k = b
      · rw [if_pos hkb, if_pos hkb]
      · rw [if_neg hkb, if_neg hkb]
        exact ih

theorem setRow_of_findRow_none (l : List (String × FilingRow)) (acc : String)
    (new : FilingRow) (h : findRow l acc = none) : setRow l acc new = l := by
  induction l with
  | nil => rfl
  | cons p t ih =>
    obtain ⟨k, r⟩ := p
    simp only [findRow] at h
    by_cases hk : k = acc
    · rw [if_pos hk] at h
      exact absurd h (by simp)
    · rw [if_neg hk] at h
      simp only [setRow]
      rw [if_neg hk, ih h]

theorem setRow_setRow (l : List (String × FilingRow)) (acc : String)
    (r1 r2 : FilingRow) :
    setRow (setRow l acc r1) acc r2 = setRow l acc r2 := by
  induction l with
  | nil => rfl
  | cons p t ih =>
    obtain ⟨k, r⟩ := p
    simp only [setRow]
    by_cases hk : k = acc
    · rw [if_pos hk]
      simp only [setRow]
      rw [if_pos hk, if_pos hk, ih]
    · rw [if_neg hk]
      simp only [setRow]
      rw [if_neg hk, if_neg hk, ih]

theorem mem_setRow {l : List (String × FilingRow)} {acc : String} {new : FilingRow}
    {q : String × FilingRow} (h : q ∈ setRow l acc new) :
    (q.1 = acc ∧ q.2 = new) ∨ (q ∈ l ∧ q.1 ≠ acc) := by
  induction l with
  | nil => simp [setRow] at h
  | cons p t ih =>
    obtain ⟨k, r⟩ := p
    by_cases hk : k = acc
    · rw [setRow, if_pos hk] at h
      rcases List.mem_cons.mp h with h1 | h1
      · subst h1
        exact Or.inl ⟨hk, rfl⟩
      · rcases ih h1 with h2 | ⟨hm, hne⟩
        · exact Or.inl h2
        · exact Or.inr ⟨List.mem_cons_of_mem _ hm, hne⟩
    · rw [setRow, if_neg hk] at h
      rcases List.mem_cons.mp h with h1 | h1
      · subst h1
        exact Or.inr ⟨List.mem_cons_self _ _, hk⟩
      · rcases ih h1 with h2 | ⟨hm, hne⟩
        · exact Or.inl h2
        · exact Or.inr ⟨List.mem_cons_of_mem _ hm, hne⟩

theorem upsert_of_found (db : DB) (acc t d : String) (st : Status) (now : Int)
    (eid : Option Nat) (old : FilingRow) (hf : findRow db.filings acc = some old) :
    upsertFiling db acc t d st now eid =
      { db with filings := setRow db.filings acc (updateRow old t d st now eid) } := by
  unfold upsertFiling
  rw [hf]

theorem upsert_of_none (db : DB) (acc t d : String) (st : Status) (now : Int)
    (eid : Option Nat) (hf : findRow db.filings acc = none) :
    upsertFiling db acc t d st now eid =
      { db with filings := (acc, newRow t d st now eid) :: db.filings } := by
  unfold upsertFiling
  rw [hf]

theorem upsert_failures (db : DB) (acc t d : String) (st : Status) (now : Int)
    (eid : Option Nat) :
    (upsertFiling db acc t d st now eid).failures = db.failures := by
  unfold upsertFiling
  cases findRow db.filings acc <;> rfl

theorem upsert_next_error_id (db : DB) (acc t d : String) (st : Status) (now : Int)
    (eid : Option Nat) :
    (upsertFiling db acc t d st now eid).next_error_id = db.next_error_id := by
  unfold upsertFiling
  cases findRow db.filings acc <;> rfl

theorem findRow_upsert_self (db : DB) (acc t d : String) (st : Status) (now : Int)
    (eid : Option Nat) :
    ∃ pa : Int, findRow (upsertFiling db acc t d st now eid).filings acc =
      some { ticker := t, filing_date := d, processed_at := pa, status := st,
             status_updated_at := now, error_id := eid } := by
  unfold upsertFiling
  cases hf : findRow db.filings acc with
  | none =>
    refine ⟨now, ?_⟩
    simp [findRow, newRow]
  | some old =>
    refine ⟨old.processed_at, ?_⟩
    simp [findRow_setRow_self, hf, updateRow]

theorem findRow_upsert_ne (db : DB) (acc b t d : String) (st : Status) (now : Int)
    (eid : Option Nat) (h : b ≠ acc) :
    findRow (upsertFiling db acc t d st now eid).filings b = findRow db.filings b := by
  unfold upsertFiling
  cases hf : findRow db.filings acc with
  | none => simp [findRow, Ne.symm h]
  | some old => simp [findRow_setRow_ne _ _ _ _ h]

theorem status_of_upsert_self (db : DB) (acc t d : String) (st : Status) (now : Int)
    (eid : Option Nat) :
    status_of (upsertFiling db acc t d st now eid) acc = some st := by
  obtain ⟨pa, h⟩ := findRow_upsert_self db acc t d st now eid
  simp [status_of, h]

theorem lastFailureIdFor_upsert (db : DB) (acc b t d : String) (st : Status)
    (now : Int) (eid : Option Nat) :
    lastFailureIdFor (upsertFiling db acc t d st now eid) b = lastFailureIdFor db b := by
  unfold lastFailureIdFor
  rw [upsert_failures]

theorem mark_processed_failures (db : DB) (acc t d : String) (now : Int) :
    (mark_processed_core db acc t d now).failures = db.failures :=
  upsert_failures db acc t d Status.processed now none

theorem mark_in_progress_failures (db : DB) (acc t d : String) (now : Int) :
    (mark_in_progress_core db acc t d now).failures = db.failures :=
  upsert_failures db acc t d Status.in_progress now none

theorem status_of_mark_processed_self (db : DB) (acc t d : String) (now : Int) :
    status_of (mark_processed_core db acc t d now) acc = some Status.processed :=
  status_of_upsert_self db acc t d Status.processed now none

theorem findRow_mark_processed_ne (db : DB) (acc b t d : String) (now : Int)
    (h : b ≠ acc) :
    findRow (mark_processed_core db acc t d now).filings b = findRow db.filings b :=
  findRow_upsert_ne db acc b t d Status.processed now none h

theorem mark_failed_failures (db : DB) (acc t d ety emsg : String) (now : Int) :
    (mark_failed_core db acc t d ety emsg now).failures = db.failures ++
      [{ id := db.next_error_id, accession_number := acc, ticker := t,
         error_type := ety, error_message := emsg, created_at := now }] := by
  unfold mark_failed_core
  rw [upsert_failures]

theorem mark_failed_next_error_id (db : DB) (acc t d ety emsg : String) (now : Int) :
    (mark_failed_core db acc t d ety emsg now).next_error_id = db.next_error_id + 1 := by
  unfold mark_failed_core
  rw [upsert_next_error_id]

theorem status_of_mark_failed_self (db : DB) (acc t d ety emsg : String) (now : Int) :
    status_of (mark_failed_core db acc t d ety emsg now) acc = some Status.failed :=
  status_of_upsert_self _ acc t d Status.failed now (some db.next_error_id)

theorem findRow_mark_failed_ne (db : DB) (acc b t d ety emsg : String) (now : Int)
    (h : b ≠ acc) :
    findRow (mark_failed_core db acc t d ety emsg now).filings b = findRow db.filings b :=
  findRow_upsert_ne _ acc b t d Status.failed now (some db.next_error_id) h

theorem is_processed_eq_of_findRow_eq {db1 db2 : DB} (b : String)
    (h : findRow db1.filings b = findRow db2.filings b) :
    is_processed db1 b = is_processed db2 b := by
  unfold is_processed
  rw [h]

theorem is_processed_false_of_failed {db : DB} {acc : String}
    (h : status_of db acc = some Status.failed) : is_processed db acc = false := by
  unfold status_of at h
  unfold is_processed
  cases hf : findRow db.filings acc with
  | none => rfl
  | some row =>
    rw [hf] at h
    simp at h
    simp [h]

theorem lastFailureIdFor_mark_failed_self (db : DB) (acc t d ety emsg : String)
    (now : Int) :
    lastFailureIdFor (mark_failed_core db acc t d ety emsg now) acc =
      some db.next_error_id := by
  unfold lastFailureIdFor
  rw [mark_failed_failures]
  simp [List.filter_append]

theorem lastFailureIdFor_mark_failed_ne (db : DB) (acc b t d ety emsg : String)
    (now : Int) (h : b ≠ acc) :
    lastFailureIdFor (mark_failed_core db acc t d ety emsg now) b =
      lastFailureIdFor db b := by
  unfold lastFailureIdFor
  rw [mark_failed_failures]
  simp [List.filter_append, Ne.symm h]

theorem upsert_upsert (db : DB) (acc t d : String) (st : Status) (now : Int)
    (eid : Option Nat) :
    upsertFiling (upsertFiling db acc t d st now eid) acc t d st now eid =
      upsertFiling db acc t d st now eid := by
  cases hf : findRow db.filings acc with
  | none =>
    rw [upsert_of_none db acc t d st now eid hf]
    have h2 : findRow ((acc, newRow t d st now eid) :: db.filings) acc =
        some (newRow t d st now eid) := by
      simp [findRow]
    rw [upsert_of_found { db with filings := (acc, newRow t d st now eid) :: db.filings }
      acc t d st now eid (newRow t d st now eid) h2]
    have h3 : updateRow (newRow t d st now eid) t d st now eid = newRow t d st now eid := rfl
    have h4 : setRow db.filings acc (newRow t d st now eid) = db.filings :=
      setRow_of_findRow_none db.filings acc _ hf
    simp [setRow, h3, h4]
  | some old =>
    rw [upsert_of_found db acc t d st now eid old hf]
    have h2 : findRow (setRow db.filings acc (updateRow old t d st now eid)) acc =
        some (updateRow old t d st now eid) := by
      rw [findRow_setRow_self, hf]
      rfl
    rw [upsert_of_found { db with filings := setRow db.filings acc (updateRow old t d st now eid) }
      acc t d st now eid (updateRow old t d st now eid) h2]
    have h3 : updateRow (updateRow old t d st now eid) t d st now eid =
        updateRow old t d st now eid := rfl
    rw [h3, setRow_setRow]

theorem mark_failed_filings_found (db : DB) (acc t d ety emsg : String) (now : Int)
    (old : FilingRow) (hf : findRow db.filings acc = some old) :
    (mark_failed_core db acc t d ety emsg now).filings =
      setRow db.filings acc (updateRow old t d Status.failed now (some db.next_error_id)) := by
  unfold mark_failed_core upsertFiling
  dsimp only
  rw [hf]

theorem mark_failed_filings_none (db : DB) (acc t d ety emsg : String) (now : Int)
    (hf : findRow db.filings acc = none) :
    (mark_failed_core db acc t d ety emsg now).filings =
      (acc, newRow t d Status.failed now (some db.next_error_id)) :: db.filings := by
  unfold mark_failed_core upsertFiling
  dsimp only
  rw [hf]

theorem findRow_mark_failed_self (db : DB) (acc t d ety emsg : String) (now : Int) :
    ∃ pa, findRow (mark_failed_core db acc t d ety emsg now).filings acc =
      some { ticker := t, filing_date := d, processed_at := pa,
             status := Status.failed, status_updated_at := now,
             error_id := some db.next_error_id } := by
  cases hf : findRow db.filings acc with
  | none =>
    refine ⟨now, ?_⟩
    rw [mark_failed_filings_none db acc t d ety emsg now hf]
    simp [findRow, newRow]
  | some old =>
    refine ⟨old.processed_at, ?_⟩
    rw [mark_failed_filings_found db acc t d ety emsg now old hf]
    rw [findRow_setRow_self, hf]
    rfl

theorem truthy_some_of_ne {s : String} (h : s ≠ "") : truthy (some s) = some s := by
  show (if s.isEmpty = true then none else some s) = some s
  rw [if_neg]
  intro he
  exact h ((String.isEmpty_iff s).mp he)

theorem status_of_eq_of_findRow_eq {db1 db2 : DB} (b : String)
    (h : findRow db1.filings b = findRow db2.filings b) :
    status_of db1 b = status_of db2 b := by
  unfold status_of
  rw [h]

theorem processFiling_success (env : Env) (now : Int) (db : DB)
    (acc tk obj txt rep : String) (fd : Option String)
    (hacc : acc ≠ "") (htk : tk ≠ "") (hgate : is_processed db acc = false)
    (hfetch : env.get_filing_text obj = Except.ok (some txt)) (htxt : txt ≠ "")
    (hex : env.extract_from_text txt tk = Except.ok rep)
    (hsv : env.save_report rep tk acc = Except.ok ()) :
    processFiling env now db
      { accession_number := some acc, ticker := some tk, filing_date := fd,
        filing_obj := some obj } =
      (mark_processed_core db acc tk (fd.getD "") now,
       [Event.fetch_text acc (status_of db acc),
        Event.extract acc (status_of db acc),
        Event.mark_processed_call acc]) := by
  simp only [processFiling, truthy_some_of_ne hacc, truthy_some_of_ne htk, hgate,
    hfetch, truthy_some_of_ne htxt, hex, hsv]
  rfl

theorem processFiling_extract_raises (env : Env) (now : Int) (db : DB)
    (acc tk obj txt : String) (fd : Option String) (e : Exc)
    (hacc : acc ≠ "") (htk : tk ≠ "") (hgate : is_processed db acc = false)
    (hfetch : env.get_filing_text obj = Except.ok (some txt)) (htxt : txt ≠ "")
    (hex : env.extract_from_text txt tk = Except.error e) :
    processFiling env now db
      { accession_number := some acc, ticker := some tk, filing_date := fd,
        filing_obj := some obj } =
      (mark_failed_core db acc tk (fd.getD "") e.ty e.msg now,
       [Event.fetch_text acc (status_of db acc),
        Event.extract acc (status_of db acc),
        Event.mark_failed_call acc e.ty]) := by
  simp only [processFiling, truthy_some_of_ne hacc, truthy_some_of_ne htk, hgate,
    hfetch, truthy_some_of_ne htxt, hex]
  rfl

theorem processFiling_save_raises (env : Env) (now : Int) (db : DB)
    (acc tk obj txt rep : String) (fd : Option String) (e : Exc)
    (hacc : acc ≠ "") (htk : tk ≠ "") (hgate : is_processed db acc = false)
    (hfetch : env.get_filing_text obj = Except.ok (some txt)) (htxt : txt ≠ "")
    (hex : env.extract_from_text txt tk = Except.ok rep)
    (hsv : env.save_report rep tk acc = Except.error e) :
    processFiling env now db
      { accession_number := some acc, ticker := some tk, filing_date := fd,
        filing_obj := some obj } =
      (mark_failed_core db acc tk (fd.getD "") e.ty e.msg now,
       [Event.fetch_text acc (status_of db acc),
        Event.extract acc (status_of db acc),
        Event.mark_failed_call acc e.ty]) := by
  simp only [processFiling, truthy_some_of_ne hacc, truthy_some_of_ne htk, hgate,
    hfetch, truthy_some_of_ne htxt, hex, hsv]
  rfl

theorem findRow_none_not_mem (l : List (String × FilingRow)) (b : String)
    (hf : findRow l b = none) : ∀ p ∈ l, p.1 ≠ b := by
  induction l with
  | nil =>
    intro p hp
    simp at hp
  | cons q t ih =>
    obtain ⟨k, r⟩ := q
    simp only [findRow] at hf
    by_cases hk : k = b
    · rw [if_pos hk] at hf
      simp at hf
    · rw [if_neg hk] at hf
      intro p hp
      rcases List.mem_cons.mp hp with h1 | h1
      · subst h1
        exact hk
      · exact ih hf p h1

theorem error_ref_inv_upsert_nonfailed (db : DB) (acc t d : String) (st : Status)
    (now : Int) (hst : st ≠ Status.failed) (hinv : error_ref_inv db) :
    error_ref_inv (upsertFiling db acc t d st now none) := by
  intro p hp
  have hfail : lastFailureIdFor (upsertFiling db acc t d st now none) p.1 =
      lastFailureIdFor db p.1 := lastFailureIdFor_upsert db acc p.1 t d st now none
  rw [hfail]
  cases hf : findRow db.filings acc with
  | some old =>
    rw [upsert_of_found db acc t d st now none old hf] at hp
    dsimp only at hp
    rcases mem_setRow hp with ⟨h1, h2⟩ | ⟨hm, hne⟩
    · refine ⟨fun _ => ?_, fun hfs => ?_⟩
      · rw [h2]
        rfl
      · rw [h2] at hfs
        simp [updateRow] at hfs
        exact absurd hfs hst
    · exact hinv p hm
  | none =>
    rw [upsert_of_none db acc t d st now none hf] at hp
    dsimp only at hp
    rcases List.mem_cons.mp hp with h1 | h1
    · subst h1
      refine ⟨fun _ => ?_, fun hfs => ?_⟩
      · rfl
      · simp [newRow] at hfs
        exact absurd hfs hst
    · exact hinv p h1

theorem error_ref_inv_mark_failed (db : DB) (acc t d ety emsg : String) (now : Int)
    (hinv : error_ref_inv db) :
    error_ref_inv (mark_failed_core db acc t d ety emsg now) := by
  intro p hp
  cases hf : findRow db.filings acc with
  | some old =>
    rw [mark_failed_filings_found db acc t d ety emsg now old hf] at hp
    rcases mem_setRow hp with ⟨h1, h2⟩ | ⟨hm, hne⟩
    · refine ⟨fun hns => ?_, fun _ => ⟨?_, ?_⟩⟩
      · rw [h2] at hns
        exact absurd rfl hns
      · rw [h2]
        rfl
      · rw [h2, h1, lastFailureIdFor_mark_failed_self db acc t d ety emsg now]
        rfl
    · have hl : lastFailureIdFor (mark_failed_core db acc t d ety emsg now) p.1 =
          lastFailureIdFor db p.1 :=
        lastFailureIdFor_mark_failed_ne db acc p.1 t d ety emsg now hne
      rw [hl]
      exact hinv p hm
  | none =>
    rw [mark_failed_filings_none db acc t d ety emsg now hf] at hp
    rcases List.mem_cons.mp hp with h1 | h1
    · subst h1
      refine ⟨fun hns => ?_, fun _ => ⟨?_, ?_⟩⟩
      · exact absurd rfl hns
      · rfl
      · rw [lastFailureIdFor_mark_failed_self db acc t d ety emsg now]
        rfl
    · have hne : p.1 ≠ acc := findRow_none_not_mem db.filings acc hf p h1
      have hl : lastFailureIdFor (mark_failed_core db acc t d ety emsg now) p.1 =
          lastFailureIdFor db p.1 :=
        lastFailureIdFor_mark_failed_ne db acc p.1 t d ety emsg now hne
      rw [hl]
      exact hinv p h1

theorem error_ref_inv_foldl_mark_failed (l : List (String × FilingRow))
    (msg : String) (now : Int) :
    ∀ db : DB, error_ref_inv db →
      error_ref_inv (l.foldl (fun d p =>
        mark_failed_core d p.1 p.2.ticker p.2.filing_date "stale_in_progress" msg now) db) := by
  induction l with
  | nil =>
    intro db h
    exact h
  | cons q t ih =>
    intro db h
    exact ih _ (error_ref_inv_mark_failed db q.1 q.2.ticker q.2.filing_date
      "stale_in_progress" msg now h)

theorem error_ref_inv_cleanup (db : DB) (m now : Int) (hinv : error_ref_inv db) :
    error_ref_inv (cleanup_stale_in_progress db m now).1 := by
  unfold cleanup_stale_in_progress
  exact error_ref_inv_foldl_mark_failed _ _ now db hinv

theorem mark_in_progress_eq (store_fault : Bool) (db : DB) (acc t d : String)
    (now : Int) :
    mark_in_progress store_fault db acc t d now =
      Except.ok (if store_fault then db else mark_in_progress_core db acc t d now) := by
  cases store_fault <;> rfl

theorem mark_processed_eq (store_fault : Bool) (db : DB) (acc t d : String)
    (now : Int) :
    mark_processed store_fault db acc t d now =
      Except.ok (if store_fault then db else mark_processed_core db acc t d now) := by
  cases store_fault <;> rfl

theorem mark_failed_eq (store_fault : Bool) (db : DB) (acc t d ety emsg : String)
    (now : Int) :
    mark_failed store_fault db acc t d ety emsg now =
      Except.ok (if store_fault then db
                 else mark_failed_core db acc t d ety emsg now) := by
  cases store_fault <;> rfl

/-- C4: the dedup gate `is_processed` (the spec's `is_claimed_or_done`) is
true exactly when a row exists for the accession whose status is Processed or
InProgress; in particular it is false when no row exists, and false when the
row's status is Failed. -/
theorem C4_dedup_gate (db : DB) (acc : String) :
    (is_processed db acc = true ↔
      ∃ r, findRow db.filings acc = some r ∧
        (r.status = Status.processed ∨ r.status = Status.in_progress)) ∧
    (findRow db.filings acc = none → is_processed db acc = false) ∧
    (∀ r, findRow db.filings acc = some r → r.status = Status.failed →
      is_processed db acc = false) := by
  refine ⟨?_, ?_, ?_⟩
  · unfold is_processed
    cases hf : findRow db.filings acc with
    | none => simp
    | some row => cases row.status <;> simp_all
  · intro h
    unfold is_processed
    rw [h]
  · intro r hf hs
    unfold is_processed
    rw [hf]
    simp [hs]

/-- C7: mark_failed appends a FailureRecord carrying the given error type and
message, links it as the row's current failure reference, sets the row's
status to Failed, and creates the FilingState row when none existed for the
accession. -/
theorem C7_mark_failed (db : DB) (acc t d ety emsg : String) (now : Int) :
    (mark_failed_core db acc t d ety emsg now).failures =
      db.failures ++
        [{ id := db.next_error_id, accession_number := acc, ticker := t,
           error_type := ety, error_message := emsg, created_at := now }] ∧
    lastFailureIdFor (mark_failed_core db acc t d ety emsg now) acc =
      some db.next_error_id ∧
    (∃ r, findRow (mark_failed_core db acc t d ety emsg now).filings acc = some r ∧
      r.status = Status.failed ∧ r.error_id = some db.next_error_id ∧
      r.ticker = t ∧ r.filing_date = d) ∧
    (findRow db.filings acc = none →
      findRow (mark_failed_core db acc t d ety emsg now).filings acc =
        some { ticker := t, filing_date := d, processed_at := now,
               status := Status.failed, status_updated_at := now,
               error_id := some db.next_error_id }) := by
  refine ⟨mark_failed_failures db acc t d ety emsg now,
          lastFailureIdFor_mark_failed_self db acc t d ety emsg now, ?_, ?_⟩
  · obtain ⟨pa, h⟩ := findRow_mark_failed_self db acc t d ety emsg now
    exact ⟨_, h, rfl, rfl, rfl, rfl⟩
  · intro hf
    rw [mark_failed_filings_none db acc t d ety emsg now hf]
    simp [findRow, newRow]

/-- C8: mark_processed is idempotent: a repeated call leaves the row's status
Processed and a state identical to a single call's, and it never touches the
failure history table. -/
theorem C8_mark_processed_idempotent (db : DB) (acc t d : String) (now : Int) :
    mark_processed_core (mark_processed_core db acc t d now) acc t d now =
      mark_processed_core db acc t d now ∧
    (mark_processed_core db acc t d now).failures = db.failures ∧
    status_of (mark_processed_core db acc t d now) acc = some Status.processed := by
  refine ⟨?_, mark_processed_failures db acc t d now,
          status_of_mark_processed_self db acc t d now⟩
  unfold mark_processed_core
  exact upsert_upsert db acc t d Status.processed now none

/-- C9 counterexample: with an invalid cron expression and the non-positive
interval 0, `start_scheduled` does not raise at call time; it schedules the
fallback interval trigger with minutes 0. -/
theorem C9_counterexample :
    start_scheduled true (fun _ => false) (some "not-a-cron") 0 =
      Except.ok (SchedOutcome.scheduled (Trigger.interval 0)) := rfl

/-- C9 amended: `start_loop` and the no-cron interval form of
`start_scheduled` reject a non-positive interval by raising at call time, but
the interval fallback taken after an invalid cron expression performs no such
check and schedules the interval trigger with the given (possibly
non-positive) minutes without raising. -/
theorem C9_interval_validation (v : String → Bool) (i : Int) (expr : String) :
    (i ≤ 0 → start_loop i = Except.error "interval_seconds must be positive") ∧
    (0 < i → start_loop i = Except.ok ()) ∧
    (i ≤ 0 → start_scheduled true v none i =
      Except.error "interval_minutes must be positive") ∧
    (0 < i → start_scheduled true v none i =
      Except.ok (SchedOutcome.scheduled (Trigger.interval i))) ∧
    (v expr = false → start_scheduled true v (some expr) i =
      Except.ok (SchedOutcome.scheduled (Trigger.interval i))) ∧
    (v expr = true → start_scheduled true v (some expr) i =
      Except.ok (SchedOutcome.scheduled (Trigger.cron expr))) := by
  refine ⟨?_, ?_, ?_, ?_, ?_, ?_⟩
  · intro h
    simp [start_loop, h]
  · intro h
    simp [start_loop, not_le.mpr h]
  · intro h
    simp [start_scheduled, h]
  · intro h
    simp [start_scheduled, not_le.mpr h]
  · intro h
    simp [start_scheduled, h]
  · intro h
    simp [start_scheduled, h]

theorem processFiling_no_claim_call (env : Env) (now : Int) (db : DB) (f : Filing)
    (acc : String) :
    Event.mark_in_progress_call acc ∉ (processFiling env now db f).2 := by
  unfold processFiling
  cases truthy f.accession_number with
  | none => simp
  | some a1 =>
    cases truthy f.ticker with
    | none => simp
    | some t1 =>
      dsimp only
      by_cases hg : is_processed db a1 = true
      · simp [hg]
      · rw [if_neg hg]
        cases f.filing_obj with
        | none => simp
        | some obj =>
          cases hfe : env.get_filing_text obj with
          | error e => simp [hfe, truthy]
          | ok topt =>
            cases htt : truthy topt with
            | none => simp [hfe, htt]
            | some txt =>
              cases hex : env.extract_from_text txt t1 with
              | error e2 => simp [hfe, htt, hex]
              | ok rep =>
                cases hsv : env.save_report rep t1 a1 with
                | error e3 => simp [hfe, htt, hex, hsv]
                | ok u => simp [hfe, htt, hex, hsv]

theorem runFilings_no_claim_call (env : Env) (now : Int) (db : DB)
    (fs : List Filing) (acc : String) :
    Event.mark_in_progress_call acc ∉ (runFilings env now db fs).2 := by
  induction fs generalizing db with
  | nil => simp [runFilings]
  | cons f rest ih =>
    simp only [runFilings]
    intro hmem
    rcases List.mem_append.mp hmem with h | h
    · exact processFiling_no_claim_call env now db f acc h
    · exact ih _ h

theorem run_once_no_claim_call (env : Env) (now : Int) (db : DB)
    (groups : List (Except Exc (List Filing))) (acc : String) :
    Event.mark_in_progress_call acc ∉ (run_once env now db groups).2 := by
  induction groups generalizing db with
  | nil => simp [run_once]
  | cons g rest ih =>
    cases g with
    | error e => simpa [run_once] using ih db
    | ok fs =>
      simp only [run_once]
      intro hmem
      rcases List.mem_append.mp hmem with h | h
      · exact runFilings_no_claim_call env now db fs acc h
      · exact ih _ h

/-- Collaborators that all succeed, to evaluate the engine on its happy path. -/
def envOk : Env :=
  { get_filing_text := fun h => Except.ok (some ("TEXT " ++ h)),
    extract_from_text := fun _ tk => Except.ok ("REPORT " ++ tk),
    save_report := fun _ _ _ => Except.ok () }

/-- A well-formed filing descriptor used as concrete input. -/
def filingA : Filing :=
  { accession_number := some "0001-A", ticker := some "NVDA",
    filing_date := some "2024-01-01", filing_obj := some "h1" }

/-- C1: the claim step is missing from the engine: `run_once` never calls
`mark_in_progress` on any input, and at a concrete filing that passes the
dedup gate, extraction is invoked while the store holds no row at all for the
accession (row status `none`, not InProgress), after which the filing is
marked Processed directly. -/
theorem C1_no_claim_before_extraction :
    (∀ env now db groups acc,
      Event.mark_in_progress_call acc ∉ (run_once env now db groups).2) ∧
    (run_once envOk 0 dbEmpty [Except.ok [filingA]]).2 =
      [Event.fetch_text "0001-A" none, Event.extract "0001-A" none,
       Event.mark_processed_call "0001-A"] ∧
    status_of (run_once envOk 0 dbEmpty [Except.ok [filingA]]).1 "0001-A" =
      some Status.processed := by
  refine ⟨fun env now db groups acc => run_once_no_claim_call env now db groups acc,
    rfl, rfl⟩

/-- Collaborators whose text fetch raises; extraction and persistence would
succeed if reached. -/
def envFetchRaises : Env :=
  { get_filing_text := fun _ =>
      Except.error { ty := "ConnectionError", msg := "timed out" },
    extract_from_text := fun _ tk => Except.ok ("REPORT " ++ tk),
    save_report := fun _ _ _ => Except.ok () }

/-- C2 counterexample: when fetching the filing text raises, `run_once` does
not call mark_failed for that accession; the inner handler swallows the
exception and the filing is finalized as Processed with an empty failure
table. -/
theorem C2_counterexample :
    status_of (run_once envFetchRaises 0 dbEmpty [Except.ok [filingA]]).1 "0001-A" =
      some Status.processed ∧
    (run_once envFetchRaises 0 dbEmpty [Except.ok [filingA]]).2 =
      [Event.fetch_text "0001-A" none, Event.mark_processed_call "0001-A"] ∧
    (run_once envFetchRaises 0 dbEmpty [Except.ok [filingA]]).1.failures = [] :=
  ⟨rfl, rfl, rfl⟩

/-- C2 amended: an exception raised while extracting, persisting the artifact,
or notifying causes mark_failed with the exception's type name and message,
the filing ends Failed, and the loop continues with the next filing of the
cycle; an exception raised while fetching the text, by contrast, is swallowed
by the inner handler and the filing is finalized as Processed. -/
theorem C2_per_filing_error_handling (env : Env) (now : Int) (db : DB)
    (rest : List Filing) (acc tk obj txt : String) (fd : Option String) (e : Exc)
    (hacc : acc ≠ "") (htk : tk ≠ "")
    (hgate : is_processed db acc = false)
    (hfetch : env.get_filing_text obj = Except.ok (some txt)) (htxt : txt ≠ "")
    (hraise : env.extract_from_text txt tk = Except.error e ∨
      (∃ rep, env.extract_from_text txt tk = Except.ok rep ∧
        env.save_report rep tk acc = Except.error e)) :
    status_of (processFiling env now db
      { accession_number := some acc, ticker := some tk, filing_date := fd,
        filing_obj := some obj }).1 acc = some Status.failed ∧
    (processFiling env now db
      { accession_number := some acc, ticker := some tk, filing_date := fd,
        filing_obj := some obj }).1.failures =
      db.failures ++
        [{ id := db.next_error_id, accession_number := acc, ticker := tk,
           error_type := e.ty, error_message := e.msg, created_at := now }] ∧
    Event.mark_failed_call acc e.ty ∈ (processFiling env now db
      { accession_number := some acc, ticker := some tk, filing_date := fd,
        filing_obj := some obj }).2 ∧
    runFilings env now db
      ({ accession_number := some acc, ticker := some tk, filing_date := fd,
         filing_obj := some obj } :: rest) =
      ((runFilings env now (processFiling env now db
          { accession_number := some acc, ticker := some tk, filing_date := fd,
            filing_obj := some obj }).1 rest).1,
       (processFiling env now db
          { accession_number := some acc, ticker := some tk, filing_date := fd,
            filing_obj := some obj }).2 ++
       (runFilings env now (processFiling env now db
          { accession_number := some acc, ticker := some tk, filing_date := fd,
            filing_obj := some obj }).1 rest).2) := by
  have hpf : processFiling env now db
      { accession_number := some acc, ticker := some tk, filing_date := fd,
        filing_obj := some obj } =
      (mark_failed_core db acc tk (fd.getD "") e.ty e.msg now,
       [Event.fetch_text acc (status_of db acc),
        Event.extract acc (status_of db acc),
        Event.mark_failed_call acc e.ty]) := by
    rcases hraise with hex | ⟨rep, hex, hsv⟩
    · exact processFiling_extract_raises env now db acc tk obj txt fd e hacc htk
        hgate hfetch htxt hex
    · exact processFiling_save_raises env now db acc tk obj txt rep fd e hacc htk
        hgate hfetch htxt hex hsv
  refine ⟨?_, ?_, ?_, rfl⟩
  · rw [hpf]
    exact status_of_mark_failed_self db acc tk (fd.getD "") e.ty e.msg now
  · rw [hpf]
    exact mark_failed_failures db acc tk (fd.getD "") e.ty e.msg now
  · rw [hpf]
    simp

/-- C2 amended witness: a concrete filing whose extraction raises ValueError
ends Failed with that error recorded, and the loop equation holds. -/
theorem C2_per_filing_error_handling_witness :
    status_of (processFiling
      { get_filing_text := fun _ => Except.ok (some "TEXT"),
        extract_from_text := fun _ _ =>
          Except.error { ty := "ValueError", msg := "bad kpi" },
        save_report := fun _ _ _ => Except.ok () } 7 dbEmpty
      { accession_number := some "0002-B", ticker := some "AMD",
        filing_date := some "2024-02-02", filing_obj := some "h2" }).1 "0002-B" =
      some Status.failed ∧
    (processFiling
      { get_filing_text := fun _ => Except.ok (some "TEXT"),
        extract_from_text := fun _ _ =>
          Except.error { ty := "ValueError", msg := "bad kpi" },
        save_report := fun _ _ _ => Except.ok () } 7 dbEmpty
      { accession_number := some "0002-B", ticker := some "AMD",
        filing_date := some "2024-02-02", filing_obj := some "h2" }).1.failures =
      dbEmpty.failures ++
        [{ id := dbEmpty.next_error_id, accession_number := "0002-B", ticker := "AMD",
           error_type := "ValueError", error_message := "bad kpi", created_at := 7 }] ∧
    Event.mark_failed_call "0002-B" "ValueError" ∈ (processFiling
      { get_filing_text := fun _ => Except.ok (some "TEXT"),
        extract_from_text := fun _ _ =>
          Except.error { ty := "ValueError", msg := "bad kpi" },
        save_report := fun _ _ _ => Except.ok () } 7 dbEmpty
      { accession_number := some "0002-B", ticker := some "AMD",
        filing_date := some "2024-02-02", filing_obj := some "h2" }).2 ∧
    runFilings
      { get_filing_text := fun _ => Except.ok (some "TEXT"),
        extract_from_text := fun _ _ =>
          Except.error { ty := "ValueError", msg := "bad kpi" },
        save_report := fun _ _ _ => Except.ok () } 7 dbEmpty
      ({ accession_number := some "0002-B", ticker := some "AMD",
         filing_date := some "2024-02-02", filing_obj := some "h2" } :: []) =
      ((runFilings
          { get_filing_text := fun _ => Except.ok (some "TEXT"),
            extract_from_text := fun _ _ =>
              Except.error { ty := "ValueError", msg := "bad kpi" },
            save_report := fun _ _ _ => Except.ok () } 7 (processFiling
          { get_filing_text := fun _ => Except.ok (some "TEXT"),
            extract_from_text := fun _ _ =>
              Except.error { ty := "ValueError", msg := "bad kpi" },
            save_report := fun _ _ _ => Except.ok () } 7 dbEmpty
          { accession_number := some "0002-B", ticker := some "AMD",
            filing_date := some "2024-02-02", filing_obj := some "h2" }).1 []).1,
       (processFiling
          { get_filing_text := fun _ => Except.ok (some "TEXT"),
            extract_from_text := fun _ _ =>
              Except.error { ty := "ValueError", msg := "bad kpi" },
            save_report := fun _ _ _ => Except.ok () } 7 dbEmpty
          { accession_number := some "0002-B", ticker := some "AMD",
            filing_date := some "2024-02-02", filing_obj := some "h2" }).2 ++
       (runFilings
          { get_filing_text := fun _ => Except.ok (some "TEXT"),
            extract_from_text := fun _ _ =>
              Except.error { ty := "ValueError", msg := "bad kpi" },
            save_report := fun _ _ _ => Except.ok () } 7 (processFiling
          { get_filing_text := fun _ => Except.ok (some "TEXT"),
            extract_from_text := fun _ _ =>
              Except.error { ty := "ValueError", msg := "bad kpi" },
            save_report := fun _ _ _ => Except.ok () } 7 dbEmpty
          { accession_number := some "0002-B", ticker := some "AMD",
            filing_date := some "2024-02-02", filing_obj := some "h2" }).1 []).2) :=
  C2_per_filing_error_handling
    { get_filing_text := fun _ => Except.ok (some "TEXT"),
      extract_from_text := fun _ _ =>
        Except.error { ty := "ValueError", msg := "bad kpi" },
      save_report := fun _ _ _ => Except.ok () } 7 dbEmpty []
    "0002-B" "AMD" "h2" "TEXT" (some "2024-02-02")
    { ty := "ValueError", msg := "bad kpi" }
    (by decide) (by decide) (by decide) rfl (by decide) (Or.inl rfl)

theorem foldl_mark_failed_findRow_not_mem (msg : String) (now : Int)
    (l : List (String × FilingRow)) :
    ∀ (db : DB) (b : String), (∀ p ∈ l, p.1 ≠ b) →
      findRow (l.foldl (fun d p => mark_failed_core d p.1 p.2.ticker p.2.filing_date
        "stale_in_progress" msg now) db).filings b = findRow db.filings b := by
  induction l with
  | nil =>
    intro db b _
    rfl
  | cons q t ih =>
    intro db b h
    simp only [List.foldl_cons]
    rw [ih _ b (fun p hp => h p (List.mem_cons_of_mem _ hp))]
    exact findRow_mark_failed_ne db q.1 b q.2.ticker q.2.filing_date
      "stale_in_progress" msg now (Ne.symm (h q (List.mem_cons_self _ _)))

theorem foldl_mark_failed_failures_mono (msg : String) (now : Int)
    (l : List (String × FilingRow)) :
    ∀ (db : DB) (fr : FailureRow), fr ∈ db.failures →
      fr ∈ (l.foldl (fun d p => mark_failed_core d p.1 p.2.ticker p.2.filing_date
        "stale_in_progress" msg now) db).failures := by
  induction l with
  | nil =>
    intro db fr h
    exact h
  | cons q t ih =>
    intro db fr h
    simp only [List.foldl_cons]
    apply ih
    rw [mark_failed_failures]
    exact List.mem_append_left _ h

theorem foldl_mark_failed_marks (msg : String) (now : Int)
    (l : List (String × FilingRow)) :
    ∀ (db : DB) (acc : String) (r : FilingRow),
      (acc, r) ∈ l → (l.map Prod.fst).Nodup →
      status_of (l.foldl (fun d p => mark_failed_core d p.1 p.2.ticker p.2.filing_date
        "stale_in_progress" msg now) db) acc = some Status.failed ∧
      ∃ fr ∈ (l.foldl (fun d p => mark_failed_core d p.1 p.2.ticker p.2.filing_date
        "stale_in_progress" msg now) db).failures,
        fr.accession_number = acc ∧ fr.error_type = "stale_in_progress" := by
  induction l with
  | nil =>
    intro db acc r h
    simp at h
  | cons q t ih =>
    intro db acc r hmem hnd
    have hnd' : (q.1 :: t.map Prod.fst).Nodup := by simpa using hnd
    have hknotin : q.1 ∉ t.map Prod.fst := (List.nodup_cons.mp hnd').1
    have hnd2 : (t.map Prod.fst).Nodup := (List.nodup_cons.mp hnd').2
    simp only [List.foldl_cons]
    rcases List.mem_cons.mp hmem with h1 | h1
    · have hk : q.1 = acc := by rw [← h1]
      have hnotin : ∀ p ∈ t, p.1 ≠ acc := by
        intro p hp hpe
        apply hknotin
        rw [hk, ← hpe]
        exact List.mem_map_of_mem Prod.fst hp
      constructor
      · rw [status_of_eq_of_findRow_eq acc
          (foldl_mark_failed_findRow_not_mem msg now t _ acc hnotin), ← hk]
        exact status_of_mark_failed_self db q.1 q.2.ticker q.2.filing_date
          "stale_in_progress" msg now
      · refine ⟨⟨db.next_error_id, q.1, q.2.ticker, "stale_in_progress", msg, now⟩,
          ?_, hk, rfl⟩
        apply foldl_mark_failed_failures_mono
        rw [mark_failed_failures]
        exact List.mem_append_right _ (List.mem_singleton_self _)
    · exact ih (mark_failed_core db q.1 q.2.ticker q.2.filing_date
        "stale_in_progress" msg now) acc r h1 hnd2

/-- A store with one stale InProgress row, claimed at time 0 and swept at
time 120 with a 60-minute threshold. -/
def staleRow : FilingRow :=
  { ticker := "NVDA", filing_date := "2024-01-01", processed_at := 0,
    status := Status.in_progress, status_updated_at := 0, error_id := none }

def dbStale : DB :=
  { filings := [("0003-C", staleRow)], failures := [], next_error_id := 1 }

/-- C3 counterexample: the sweep does transition the stale row to Failed,
after which the dedup gate answers false, and it returns the count 1 — but
the recorded error_type is "stale_in_progress", and no failure row with
error_type "stale_claim" exists, contrary to the claim. -/
theorem C3_counterexample :
    status_of (cleanup_stale_in_progress dbStale 60 120).1 "0003-C" =
      some Status.failed ∧
    is_processed (cleanup_stale_in_progress dbStale 60 120).1 "0003-C" = false ∧
    (cleanup_stale_in_progress dbStale 60 120).2 = 1 ∧
    ((cleanup_stale_in_progress dbStale 60 120).1.failures.map
      FailureRow.error_type) = ["stale_in_progress"] ∧
    ¬ ∃ fr ∈ (cleanup_stale_in_progress dbStale 60 120).1.failures,
      fr.error_type = "stale_claim" := by
  decide

/-- C3 amended: the sweep transitions every InProgress row whose
status_updated_at is older than now minus max_age to Failed — after which the
dedup gate returns false for that accession — and returns the number of rows
so selected; the error_type it records is "stale_in_progress", not the
claim's "stale_claim". -/
theorem C3_stale_sweep (db : DB) (m now : Int) :
    (cleanup_stale_in_progress db m now).2 =
      (db.filings.filter (stale_pred m now)).length ∧
    ((db.filings.map Prod.fst).Nodup →
      ∀ acc r, (acc, r) ∈ db.filings → r.status = Status.in_progress →
        r.status_updated_at < now - m →
        status_of (cleanup_stale_in_progress db m now).1 acc = some Status.failed ∧
        is_processed (cleanup_stale_in_progress db m now).1 acc = false ∧
        ∃ fr ∈ (cleanup_stale_in_progress db m now).1.failures,
          fr.accession_number = acc ∧ fr.error_type = "stale_in_progress") := by
  constructor
  · rfl
  · intro hnd acc r hmem hst hage
    have hmemf : (acc, r) ∈ db.filings.filter (stale_pred m now) := by
      refine List.mem_filter.mpr ⟨hmem, ?_⟩
      simp [stale_pred, hst, hage]
    have hndf : ((db.filings.filter (stale_pred m now)).map Prod.fst).Nodup :=
      hnd.sublist ((List.filter_sublist db.filings).map Prod.fst)
    have hmain := foldl_mark_failed_marks
      ("Filing stuck in progress for more than " ++ toString m ++ " minutes.") now
      (db.filings.filter (stale_pred m now)) db acc r hmemf hndf
    exact ⟨hmain.1, is_processed_false_of_failed hmain.1, hmain.2⟩

/-- C5: run_once over three filings where the second raises during
extraction: the first and third accessions end Processed, the second ends
Failed with a failure record carrying the captured error type and message,
and the cycle runs to completion, emitting a final mark event for each of
the three filings. -/
theorem C5_partial_failure_isolation (env : Env) (now : Int) (db : DB)
    (a1 a2 a3 t1 t2 t3 o1 o2 o3 x1 x2 x3 r1 r3 : String)
    (fd1 fd2 fd3 : Option String) (e : Exc)
    (h12 : a1 ≠ a2) (h13 : a1 ≠ a3) (h23 : a2 ≠ a3)
    (ha1 : a1 ≠ "") (ha2 : a2 ≠ "") (ha3 : a3 ≠ "")
    (ht1 : t1 ≠ "") (ht2 : t2 ≠ "") (ht3 : t3 ≠ "")
    (hg1 : is_processed db a1 = false) (hg2 : is_processed db a2 = false)
    (hg3 : is_processed db a3 = false)
    (hf1 : env.get_filing_text o1 = Except.ok (some x1)) (hx1 : x1 ≠ "")
    (hf2 : env.get_filing_text o2 = Except.ok (some x2)) (hx2 : x2 ≠ "")
    (hf3 : env.get_filing_text o3 = Except.ok (some x3)) (hx3 : x3 ≠ "")
    (he1 : env.extract_from_text x1 t1 = Except.ok r1)
    (hs1 : env.save_report r1 t1 a1 = Except.ok ())
    (he2 : env.extract_from_text x2 t2 = Except.error e)
    (he3 : env.extract_from_text x3 t3 = Except.ok r3)
    (hs3 : env.save_report r3 t3 a3 = Except.ok ()) :
    status_of (run_once env now db [Except.ok
      [{ accession_number := some a1, ticker := some t1, filing_date := fd1,
         filing_obj := some o1 },
       { accession_number := some a2, ticker := some t2, filing_date := fd2,
         filing_obj := some o2 },
       { accession_number := some a3, ticker := some t3, filing_date := fd3,
         filing_obj := some o3 }]]).1 a1 = some Status.processed ∧
    status_of (run_once env now db [Except.ok
      [{ accession_number := some a1, ticker := some t1, filing_date := fd1,
         filing_obj := some o1 },
       { accession_number := some a2, ticker := some t2, filing_date := fd2,
         filing_obj := some o2 },
       { accession_number := some a3, ticker := some t3, filing_date := fd3,
         filing_obj := some o3 }]]).1 a2 = some Status.failed ∧
    status_of (run_once env now db [Except.ok
      [{ accession_number := some a1, ticker := some t1, filing_date := fd1,
         filing_obj := some o1 },
       { accession_number := some a2, ticker := some t2, filing_date := fd2,
         filing_obj := some o2 },
       { accession_number := some a3, ticker := some t3, filing_date := fd3,
         filing_obj := some o3 }]]).1 a3 = some Status.processed ∧
    (∃ fr ∈ (run_once env now db [Except.ok
      [{ accession_number := some a1, ticker := some t1, filing_date := fd1,
         filing_obj := some o1 },
       { accession_number := some a2, ticker := some t2, filing_date := fd2,
         filing_obj := some o2 },
       { accession_number := some a3, ticker := some t3, filing_date := fd3,
         filing_obj := some o3 }]]).1.failures,
      fr.accession_number = a2 ∧ fr.error_type = e.ty ∧ fr.error_message = e.msg) ∧
    Event.mark_processed_call a1 ∈ (run_once env now db [Except.ok
      [{ accession_number := some a1, ticker := some t1, filing_date := fd1,
         filing_obj := some o1 },
       { accession_number := some a2, ticker := some t2, filing_date := fd2,
         filing_obj := some o2 },
       { accession_number := some a3, ticker := some t3, filing_date := fd3,
         filing_obj := some o3 }]]).2 ∧
    Event.mark_failed_call a2 e.ty ∈ (run_once env now db [Except.ok
      [{ accession_number := some a1, ticker := some t1, filing_date := fd1,
         filing_obj := some o1 },
       { accession_number := some a2, ticker := some t2, filing_date := fd2,
         filing_obj := some o2 },
       { accession_number := some a3, ticker := some t3, filing_date := fd3,
         filing_obj := some o3 }]]).2 ∧
    Event.mark_processed_call a3 ∈ (run_once env now db [Except.ok
      [{ accession_number := some a1, ticker := some t1, filing_date := fd1,
         filing_obj := some o1 },
       { accession_number := some a2, ticker := some t2, filing_date := fd2,
         filing_obj := some o2 },
       { accession_number := some a3, ticker := some t3, filing_date := fd3,
         filing_obj := some o3 }]]).2 := by
  have hp1 := processFiling_success env now db a1 t1 o1 x1 r1 fd1 ha1 ht1 hg1
    hf1 hx1 he1 hs1
  have hg2' : is_processed (mark_processed_core db a1 t1 (fd1.getD "") now) a2 = false := by
    rw [is_processed_eq_of_findRow_eq a2
      (findRow_mark_processed_ne db a1 a2 t1 (fd1.getD "") now (Ne.symm h12))]
    exact hg2
  have hp2 := processFiling_extract_raises env now
    (mark_processed_core db a1 t1 (fd1.getD "") now) a2 t2 o2 x2 fd2 e ha2 ht2
    hg2' hf2 hx2 he2
  have hg3' : is_processed (mark_failed_core (mark_processed_core db a1 t1
      (fd1.getD "") now) a2 t2 (fd2.getD "") e.ty e.msg now) a3 = false := by
    rw [is_processed_eq_of_findRow_eq a3 (findRow_mark_failed_ne _ a2 a3 t2
      (fd2.getD "") e.ty e.msg now (Ne.symm h23))]
    rw [is_processed_eq_of_findRow_eq a3
      (findRow_mark_processed_ne db a1 a3 t1 (fd1.getD "") now (Ne.symm h13))]
    exact hg3
  have hp3 := processFiling_success env now (mark_failed_core (mark_processed_core
    db a1 t1 (fd1.getD "") now) a2 t2 (fd2.getD "") e.ty e.msg now) a3 t3 o3 x3
    r3 fd3 ha3 ht3 hg3' hf3 hx3 he3 hs3
  refine ⟨?_, ?_, ?_, ?_, ?_, ?_, ?_⟩
  · simp only [run_once, runFilings, hp1, hp2, hp3]
    rw [status_of_eq_of_findRow_eq a1
      (findRow_mark_processed_ne _ a3 a1 t3 (fd3.getD "") now h13)]
    rw [status_of_eq_of_findRow_eq a1
      (findRow_mark_failed_ne _ a2 a1 t2 (fd2.getD "") e.ty e.msg now h12)]
    exact status_of_mark_processed_self db a1 t1 (fd1.getD "") now
  · simp only [run_once, runFilings, hp1, hp2, hp3]
    rw [status_of_eq_of_findRow_eq a2
      (findRow_mark_processed_ne _ a3 a2 t3 (fd3.getD "") now h23)]
    exact status_of_mark_failed_self _ a2 t2 (fd2.getD "") e.ty e.msg now
  · simp only [run_once, runFilings, hp1, hp2, hp3]
    exact status_of_mark_processed_self _ a3 t3 (fd3.getD "") now
  · simp only [run_once, runFilings, hp1, hp2, hp3]
    refine ⟨⟨(mark_processed_core db a1 t1 (fd1.getD "") now).next_error_id,
      a2, t2, e.ty, e.msg, now⟩, ?_, rfl, rfl, rfl⟩
    rw [mark_processed_failures, mark_failed_failures]
    exact List.mem_append_right _ (List.mem_singleton_self _)
  · simp [run_once, runFilings, hp1, hp2, hp3]
  · simp [run_once, runFilings, hp1, hp2, hp3]
  · simp [run_once, runFilings, hp1, hp2, hp3]

/-- Collaborators for the C5 witness: extraction raises RuntimeError for the
AMD filing and succeeds for the others. -/
def envC5 : Env :=
  { get_filing_text := fun h => Except.ok (some ("TEXT " ++ h)),
    extract_from_text := fun _ tk =>
      if tk = "AMD" then Except.error { ty := "RuntimeError", msg := "parse failure" }
      else Except.ok ("REPORT " ++ tk),
    save_report := fun _ _ _ => Except.ok () }

/-- C5 witness: a concrete three-filing cycle (NVDA, AMD, INTC) where the AMD
extraction raises RuntimeError: NVDA and INTC end Processed, AMD ends Failed
with the captured error, and all three final mark events are emitted. -/
theorem C5_partial_failure_isolation_witness :
    status_of (run_once envC5 0 dbEmpty [Except.ok
      [{ accession_number := some "0001-A", ticker := some "NVDA",
         filing_date := some "2024-01-01", filing_obj := some "h1" },
       { accession_number := some "0002-B", ticker := some "AMD",
         filing_date := some "2024-01-02", filing_obj := some "h2" },
       { accession_number := some "0003-C", ticker := some "INTC",
         filing_date := some "2024-01-03", filing_obj := some "h3" }]]).1 "0001-A" =
      some Status.processed ∧
    status_of (run_once envC5 0 dbEmpty [Except.ok
      [{ accession_number := some "0001-A", ticker := some "NVDA",
         filing_date := some "2024-01-01", filing_obj := some "h1" },
       { accession_number := some "0002-B", ticker := some "AMD",
         filing_date := some "2024-01-02", filing_obj := some "h2" },
       { accession_number := some "0003-C", ticker := some "INTC",
         filing_date := some "2024-01-03", filing_obj := some "h3" }]]).1 "0002-B" =
      some Status.failed ∧
    status_of (run_once envC5 0 dbEmpty [Except.ok
      [{ accession_number := some "0001-A", ticker := some "NVDA",
         filing_date := some "2024-01-01", filing_obj := some "h1" },
       { accession_number := some "0002-B", ticker := some "AMD",
         filing_date := some "2024-01-02", filing_obj := some "h2" },
       { accession_number := some "0003-C", ticker := some "INTC",
         filing_date := some "2024-01-03", filing_obj := some "h3" }]]).1 "0003-C" =
      some Status.processed ∧
    (∃ fr ∈ (run_once envC5 0 dbEmpty [Except.ok
      [{ accession_number := some "0001-A", ticker := some "NVDA",
         filing_date := some "2024-01-01", filing_obj := some "h1" },
       { accession_number := some "0002-B", ticker := some "AMD",
         filing_date := some "2024-01-02", filing_obj := some "h2" },
       { accession_number := some "0003-C", ticker := some "INTC",
         filing_date := some "2024-01-03", filing_obj := some "h3" }]]).1.failures,
      fr.accession_number = "0002-B" ∧ fr.error_type = "RuntimeError" ∧
        fr.error_message = "parse failure") ∧
    Event.mark_processed_call "0001-A" ∈ (run_once envC5 0 dbEmpty [Except.ok
      [{ accession_number := some "0001-A", ticker := some "NVDA",
         filing_date := some "2024-01-01", filing_obj := some "h1" },
       { accession_number := some "0002-B", ticker := some "AMD",
         filing_date := some "2024-01-02", filing_obj := some "h2" },
       { accession_number := some "0003-C", ticker := some "INTC",
         filing_date := some "2024-01-03", filing_obj := some "h3" }]]).2 ∧
    Event.mark_failed_call "0002-B" "RuntimeError" ∈ (run_once envC5 0 dbEmpty [Except.ok
      [{ accession_number := some "0001-A", ticker := some "NVDA",
         filing_date := some "2024-01-01", filing_obj := some "h1" },
       { accession_number := some "0002-B", ticker := some "AMD",
         filing_date := some "2024-01-02", filing_obj := some "h2" },
       { accession_number := some "0003-C", ticker := some "INTC",
         filing_date := some "2024-01-03", filing_obj := some "h3" }]]).2 ∧
    Event.mark_processed_call "0003-C" ∈ (run_once envC5 0 dbEmpty [Except.ok
      [{ accession_number := some "0001-A", ticker := some "NVDA",
         filing_date := some "2024-01-01", filing_obj := some "h1" },
       { accession_number := some "0002-B", ticker := some "AMD",
         filing_date := some "2024-01-02", filing_obj := some "h2" },
       { accession_number := some "0003-C", ticker := some "INTC",
         filing_date := some "2024-01-03", filing_obj := some "h3" }]]).2 :=
  C5_partial_failure_isolation envC5 0 dbEmpty
    "0001-A" "0002-B" "0003-C" "NVDA" "AMD" "INTC" "h1" "h2" "h3"
    "TEXT h1" "TEXT h2" "TEXT h3" "REPORT NVDA" "REPORT INTC"
    (some "2024-01-01") (some "2024-01-02") (some "2024-01-03")
    { ty := "RuntimeError", msg := "parse failure" }
    (by decide) (by decide) (by decide) (by decide) (by decide) (by decide)
    (by decide) (by decide) (by decide) rfl rfl rfl
    rfl (by decide) rfl (by decide) rfl (by decide)
    rfl rfl rfl rfl rfl

/-- C6: every StateManager mutation preserves the invariant that a filing
row's failure reference (`error_id`) is null whenever its status is not
Failed, and points at the most recently appended failure record for that
accession whenever its status is Failed. -/
theorem C6_failure_ref_invariant (db : DB) (hinv : error_ref_inv db) :
    (∀ acc t d now, error_ref_inv (mark_in_progress_core db acc t d now)) ∧
    (∀ acc t d now, error_ref_inv (mark_processed_core db acc t d now)) ∧
    (∀ acc t d ety emsg now, error_ref_inv (mark_failed_core db acc t d ety emsg now)) ∧
    (∀ m now, error_ref_inv (cleanup_stale_in_progress db m now).1) ∧
    (∀ fault acc t d now db2,
      mark_in_progress fault db acc t d now = Except.ok db2 → error_ref_inv db2) ∧
    (∀ fault acc t d now db2,
      mark_processed fault db acc t d now = Except.ok db2 → error_ref_inv db2) ∧
    (∀ fault acc t d ety emsg now db2,
      mark_failed fault db acc t d ety emsg now = Except.ok db2 → error_ref_inv db2) := by
  have hip : ∀ acc t d now, error_ref_inv (mark_in_progress_core db acc t d now) :=
    fun acc t d now =>
      error_ref_inv_upsert_nonfailed db acc t d Status.in_progress now (by decide) hinv
  have hpp : ∀ acc t d now, error_ref_inv (mark_processed_core db acc t d now) :=
    fun acc t d now =>
      error_ref_inv_upsert_nonfailed db acc t d Status.processed now (by decide) hinv
  have hfp : ∀ acc t d ety emsg now,
      error_ref_inv (mark_failed_core db acc t d ety emsg now) :=
    fun acc t d ety emsg now => error_ref_inv_mark_failed db acc t d ety emsg now hinv
  refine ⟨hip, hpp, hfp, fun m now => error_ref_inv_cleanup db m now hinv, ?_, ?_, ?_⟩
  · intro fault acc t d now db2 h
    rw [mark_in_progress_eq] at h
    cases fault
    · simp at h
      rw [← h]
      exact hip acc t d now
    · simp at h
      rw [← h]
      exact hinv
  · intro fault acc t d now db2 h
    rw [mark_processed_eq] at h
    cases fault
    · simp at h
      rw [← h]
      exact hpp acc t d now
    · simp at h
      rw [← h]
      exact hinv
  · intro fault acc t d ety emsg now db2 h
    rw [mark_failed_eq] at h
    cases fault
    · simp at h
      rw [← h]
      exact hfp acc t d ety emsg now
    · simp at h
      rw [← h]
      exact hinv

/-- C6 witness: the invariant holds at a fresh store and is preserved
concretely by marking a failure there. -/
theorem C6_failure_ref_invariant_witness :
    error_ref_inv (mark_failed_core dbEmpty "0001-A" "NVDA" "2024-01-01"
      "ValueError" "boom" 5) :=
  (C6_failure_ref_invariant dbEmpty (by decide)).2.2.1 "0001-A" "NVDA" "2024-01-01"
    "ValueError" "boom" 5

/-- C10: the three StateManager mutations never propagate a store exception:
whatever the store does, each call returns normally (`Except.ok`), and when
the write failed the database is unchanged, so the caller cannot observe the
failure. -/
theorem C10_marks_never_raise (store_fault : Bool) (db : DB)
    (acc t d ety emsg : String) (now : Int) :
    mark_in_progress store_fault db acc t d now =
      Except.ok (if store_fault then db else mark_in_progress_core db acc t d now) ∧
    mark_processed store_fault db acc t d now =
      Except.ok (if store_fault then db else mark_processed_core db acc t d now) ∧
    mark_failed store_fault db acc t d ety emsg now =
      Except.ok (if store_fault then db
                 else mark_failed_core db acc t d ety emsg now) := by
  cases store_fault <;> exact ⟨rfl, rfl, rfl⟩

end Celestial
